import Mathlib

/-!
Shallow embedding of the ZSTRM scheduling / licensing core
(`src/server/app/services/scheduler.py`, `licensing.py`, `jobs.py`,
`pipeline.py`, data model in `models.py`).

Conventions of the embedding:
* `datetime` values are modelled as `Int` seconds; `timedelta(minutes=m)`
  is `60 * m` and `timedelta(hours=h)` is `3600 * h`.
* Python truthiness is translated explicitly: a `datetime` is always
  truthy (so `if x.ends_at` means `ends_at ≠ None`), while an `int` is
  falsy when it is `0` (so `if x.duration_minutes` means
  `duration_minutes` is set and nonzero).
* The float comparison `(ends_at - starts_at).total_seconds() / 60 >
  duration_minutes` is translated as the exact cross-multiplied
  comparison `ends_at - starts_at > 60 * duration_minutes`.
* Database rows are lists of records; `session.get(T, id)` is a
  `List.find?` by `id`, and a row update rewrites every row with that id.
-/

namespace ZSTRM

/-- `models.LicenseTier`. -/
inductive LicenseTier
  | basic
  | premium
  | ultimate
  deriving DecidableEq, Repr

/-- `models.PresetType`. -/
inductive PresetType
  | copy
  | encode
  deriving DecidableEq, Repr

/-- `models.AudioReplaceMode`. -/
inductive AudioReplaceMode
  | none
  | external_loop
  | video_only
  deriving DecidableEq, Repr

/-- `models.HotSwapMode`. -/
inductive HotSwapMode
  | none
  | immediate
  | next_loop
  deriving DecidableEq, Repr

/-- `models.JobStatus`. -/
inductive JobStatus
  | pending
  | running
  | failed
  | completed
  | cancelled
  | invalid
  deriving DecidableEq, Repr

/-- `models.ScheduleMode`. -/
inductive ScheduleMode
  | one_time
  | windowed
  deriving DecidableEq, Repr

/-- `models.EventType`. -/
inductive EventType
  | started
  | stopped
  | retry
  | invalidated
  | downgraded
  | upgraded
  deriving DecidableEq, Repr

/-- `models.Asset` (columns not read by the core kept for fidelity). -/
structure Asset where
  id : Int
  name : String
  source_url : Option String
  size_bytes : Option Int
  duration_seconds : Option Int
  thumbnail_path : Option String
  audio_only : Bool
  deriving DecidableEq, Repr

/-- `models.Destination`. -/
structure Destination where
  id : Int
  name : String
  endpoint : String
  stream_key : Option String
  enabled : Bool
  deriving DecidableEq, Repr

/-- `models.Preset`. -/
structure Preset where
  id : Int
  name : String
  preset_type : PresetType
  video_bitrate : Option Int
  audio_bitrate : Option Int
  force_encode : Bool
  audio_replace : AudioReplaceMode
  hot_swap : HotSwapMode
  deriving DecidableEq, Repr

/-- `models.Job`. -/
structure Job where
  id : Int
  asset_id : Int
  destination_id : Int
  preset_id : Int
  created_at : Int
  updated_at : Int
  status : JobStatus
  invalid_reason : Option String
  deriving DecidableEq, Repr

/-- `models.Schedule`. -/
structure Schedule where
  id : Int
  job_id : Int
  starts_at : Int
  ends_at : Option Int
  duration_minutes : Option Int
  mode : ScheduleMode
  loop : Bool
  run_now : Bool
  last_run_at : Option Int
  deriving DecidableEq, Repr

/-- `models.Session`. -/
structure Session where
  id : Int
  schedule_id : Int
  job_id : Int
  started_at : Int
  ended_at : Option Int
  status : JobStatus
  ffmpeg_log_path : Option String
  reason : Option String
  deriving DecidableEq, Repr

/-- `models.EventLog` (`created_at` elided; never read by the core). -/
structure EventLog where
  session_id : Option Int
  job_id : Option Int
  schedule_id : Option Int
  event_type : EventType
  message : String
  deriving DecidableEq, Repr

/-- `models.LicenseState`. -/
structure LicenseState where
  tier : LicenseTier
  install_id : String
  install_secret : String
  lease_expires_at : Int
  grace_expires_at : Option Int
  last_checked_at : Int
  deriving DecidableEq, Repr

/-- `models.RunnerLock`. -/
structure RunnerLock where
  lock_name : String
  locked_by : String
  locked_at : Int
  expires_at : Int
  deriving DecidableEq, Repr

/-- The relevant `config.Settings` knobs. -/
structure LicensingConfig where
  license_lease_hours : Int
  licensing_grace_hours : Int
  licensing_retry_window_minutes : Int
  licensing_retry_backoff_minutes : Int
  scheduler_tick_seconds : Int
  deriving DecidableEq, Repr

/-! ## Scheduler: pure decision helpers (`scheduler.py`) -/

/-- `schedule.starts_at + timedelta(minutes=schedule.duration_minutes or 0)`
(scheduler.py line 61). -/
def planned_end (s : Schedule) : Int :=
  s.starts_at + 60 * (s.duration_minutes.getD 0)

/-- `Scheduler._should_run` (scheduler.py lines 57-68). The Python checks
`if schedule.mode == one_time` first and falls through to the windowed
logic for every other mode. `x and now > y` on datetimes is
`x ≠ None ∧ y < now`; `planned_end` itself is a datetime and hence always
truthy. -/
def should_run (s : Schedule) (now : Int) : Bool :=
  if s.mode = ScheduleMode.one_time then
    decide (s.starts_at ≤ now) &&
      (match s.ends_at with
       | Option.none => true
       | Option.some e => decide (now ≤ e))
  else
    -- lines 61-68, reached for mode = windowed
    if (match s.ends_at with
        | Option.none => false
        | Option.some e => decide (e < now)) then false
    else if decide (planned_end s < now) && !s.loop then false
    else if decide (s.mode = ScheduleMode.windowed) && !s.loop &&
        (match s.ends_at with
         | Option.none => false
         | Option.some e => decide (planned_end s < e)) then false
    else decide (s.starts_at ≤ now)

/-- `Scheduler._validate_schedule` (scheduler.py lines 70-75).
`if ... and schedule.ends_at and schedule.duration_minutes` follows Python
truthiness: `ends_at` must be set, `duration_minutes` must be set and
nonzero.  The `window_minutes > duration_minutes` float comparison is the
exact comparison `ends_at - starts_at > 60 * duration_minutes`. -/
def validate_schedule (s : Schedule) : Option String :=
  match s.ends_at, s.duration_minutes with
  | Option.some e, Option.some d =>
    if s.mode = ScheduleMode.windowed ∧ d ≠ 0 then
      if e - s.starts_at > 60 * d ∧ s.loop = false then
        Option.some "Loop required when window exceeds duration"
      else Option.none
    else Option.none
  | _, _ => Option.none

/-- `Scheduler._acquire_lock` (scheduler.py lines 28-43), as a pure
function of the current `scheduler` lock row, the requesting runner, the
TTL used by the source (`scheduler_tick_seconds * 3`) and the clock.
Returns the `return` value together with the resulting lock row. -/
def acquire_lock (lock : Option RunnerLock) (runner_id : String) (ttl : Int) (now : Int) :
    Bool × Option RunnerLock :=
  match lock with
  | Option.some l =>
    if now < l.expires_at ∧ l.locked_by ≠ runner_id then
      (false, Option.some l)
    else
      (true, Option.some { l with locked_by := runner_id, expires_at := now + ttl, locked_at := now })
  | Option.none =>
    (true, Option.some
      { lock_name := "scheduler", locked_by := runner_id, locked_at := now, expires_at := now + ttl })

/-- `Scheduler._retry_within_window` (scheduler.py lines 102-109). -/
def retry_within_window (s : Schedule) (now : Int) : Bool :=
  if (match s.ends_at with
      | Option.none => false
      | Option.some e => decide (e < now)) then false
  else if decide (planned_end s < now) && !s.loop then false
  else true

/-! ## Licensing (`licensing.py`) -/

/-- `LicensingClient.get_tier` (licensing.py lines 67-73).
`if self.state.grace_expires_at and self.state.grace_expires_at > now`:
a datetime is always truthy, so the guard is `grace_expires_at ≠ None ∧
now < grace_expires_at`. -/
def get_tier (st : LicenseState) (now : Int) : LicenseTier :=
  if st.lease_expires_at < now then
    match st.grace_expires_at with
    | Option.some g => if now < g then st.tier else LicenseTier.basic
    | Option.none => LicenseTier.basic
  else st.tier

/-- Outcome of the remote `POST settings.license_endpoint` call in
`renew_license` (licensing.py lines 31-42): a 2xx response whose JSON may
or may not carry a `tier` field, or any failure (network error, non-2xx
raised by `raise_for_status`, timeout, malformed payload) — all of which
land in the single `except Exception` branch. -/
inductive RemoteResult
  | success (tier_field : Option LicenseTier)
  | failure
  deriving DecidableEq, Repr

/-- `renew_license` (licensing.py lines 29-59), as a pure function of the
current state, the remote outcome and the clock. On success it sets the
tier from the payload (defaulting to the current tier), renews the lease
and clears grace; on failure it only sets `grace_expires_at`. The
persistence block then writes `tier`, `lease_expires_at`,
`grace_expires_at` and `last_checked_at` and appends one event of the
returned kind. Note the remote failure is caught inside this function:
it returns normally, it does not raise. -/
def renew_license (st : LicenseState) (r : RemoteResult) (now : Int) (cfg : LicensingConfig) :
    LicenseState × EventType :=
  match r with
  | RemoteResult.success tier_field =>
    ({ st with
        tier := tier_field.getD st.tier,
        lease_expires_at := now + 3600 * cfg.license_lease_hours,
        grace_expires_at := Option.none,
        last_checked_at := now },
     EventType.upgraded)
  | RemoteResult.failure =>
    ({ st with
        grace_expires_at := Option.some (now + 3600 * cfg.licensing_grace_hours),
        last_checked_at := now },
     EventType.downgraded)

/-! ## Job license gate (`jobs.py`) -/

/-- `session.get(Preset, job.preset_id)`: lookup of a preset row by id. -/
def find_preset (presets : List Preset) (pid : Int) : Option Preset :=
  presets.find? (fun p => p.id == pid)

/-- `invalidate_job` (jobs.py lines 16-24), restricted to the job record
it returns (the event append is modelled at the store level where a claim
needs it). -/
def invalidate_job (job : Job) (reason : String) (now : Int) : Job :=
  { job with status := JobStatus.invalid, invalid_reason := Option.some reason, updated_at := now }

/-- `evaluate_license` (jobs.py lines 27-46) as a function of the tier
read from `licensing_client.get_tier()`, the preset lookup result and the
clock. The checks run in source order; `preset.audio_replace.value !=
"none"` is the enum comparison `audio_replace ≠ none`. -/
def evaluate_license (tier : LicenseTier) (preset : Option Preset) (job : Job) (now : Int) : Job :=
  match preset with
  | Option.none => invalidate_job job "Missing preset" now
  | Option.some p =>
    if tier = LicenseTier.basic ∧ p.audio_replace ≠ AudioReplaceMode.none then
      invalidate_job job "Audio replace requires Premium" now
    else if tier = LicenseTier.basic ∧ p.hot_swap ≠ HotSwapMode.none then
      invalidate_job job "Hot swap requires Premium" now
    else if tier ≠ LicenseTier.ultimate ∧ p.hot_swap = HotSwapMode.immediate then
      invalidate_job job "Immediate swaps require Ultimate" now
    else
      { job with invalid_reason := Option.none, status := JobStatus.pending, updated_at := now }

/-- `downgrade_jobs` (jobs.py lines 49-53): re-evaluate every job at the
tier `evaluate_license` reads from the licensing client. -/
def downgrade_jobs (tier : LicenseTier) (presets : List Preset) (jobs : List Job) (now : Int) :
    List Job :=
  jobs.map (fun j => evaluate_license tier (find_preset presets j.preset_id) j now)

/-- `LicensingClient.downgrade_if_needed` (licensing.py lines 75-93).
The Python first sets `self.state.tier = basic` in memory, persists
`tier = basic` plus a fresh grace window and a `downgraded` event, then
runs the cascade, whose `evaluate_license` calls read
`get_tier` on the in-memory state (tier already basic, grace unchanged).
Returns the persisted license state, the re-evaluated jobs and the
emitted events. -/
def downgrade_if_needed (st : LicenseState) (jobs : List Job) (presets : List Preset) (now : Int)
    (cfg : LicensingConfig) : LicenseState × List Job × List EventType :=
  if get_tier st now = LicenseTier.basic ∧ st.tier ≠ LicenseTier.basic then
    let mem := { st with tier := LicenseTier.basic }
    let persisted :=
      { mem with grace_expires_at := Option.some (now + 3600 * cfg.licensing_grace_hours) }
    (persisted, downgrade_jobs (get_tier mem now) presets jobs now, [EventType.downgraded])
  else (st, jobs, [])

/-- What `LicensingClient._run` does between two sleeps. -/
inductive SleepKind
  | backoff
  | full_lease
  deriving DecidableEq, Repr

/-- The in-memory state of `LicensingClient._run`: the licensing state
and the `retry_deadline` local. -/
structure CycleState where
  license : LicenseState
  retry_deadline : Int
  deriving DecidableEq, Repr

/-- One iteration of the `while True` loop of `LicensingClient._run`
(licensing.py lines 97-109). `renew_license` catches every exception of
the remote call internally and returns normally, so for every
`RemoteResult` the `try` block succeeds: the retry deadline is reset and
the task sleeps `license_lease_hours * 3600`. The `except` branch — the
forced-downgrade check against the old deadline followed by the
`licensing_retry_backoff_minutes` back-off — is reachable only when
`renew_license` itself raises (e.g. a persistence failure), modelled by
`persist_raises`; partial in-memory mutation before such a raise is not
modelled (no claim depends on it). -/
def run_cycle (cs : CycleState) (jobs : List Job) (presets : List Preset) (r : RemoteResult)
    (persist_raises : Bool) (now : Int) (cfg : LicensingConfig) :
    CycleState × List Job × SleepKind × List EventType :=
  -- lines 98-100: `if now >= self.state.lease_expires_at: self.downgrade_if_needed()`
  let pre :=
    if cs.license.lease_expires_at ≤ now then
      downgrade_if_needed cs.license jobs presets now cfg
    else (cs.license, jobs, [])
  let st0 := pre.1
  let jobs0 := pre.2.1
  let evs0 := pre.2.2
  if persist_raises then
    -- lines 104-108: deadline check, then back off without resetting it
    if now > cs.retry_deadline then
      let fd := downgrade_if_needed st0 jobs0 presets now cfg
      ({ license := fd.1, retry_deadline := cs.retry_deadline },
       fd.2.1, SleepKind.backoff, evs0 ++ fd.2.2)
    else
      ({ license := st0, retry_deadline := cs.retry_deadline }, jobs0, SleepKind.backoff, evs0)
  else
    -- lines 102-103 and 109
    let res := renew_license st0 r now cfg
    ({ license := res.1, retry_deadline := now + 60 * cfg.licensing_retry_window_minutes },
     jobs0, SleepKind.full_lease, evs0 ++ [res.2])

/-! ## Pipeline description (`pipeline.py`) -/

/-- Python `x or 'auto'` on an optional bitrate: `None` and `0` are
falsy. -/
def bitrate_or_auto (v : Option Int) : String :=
  match v with
  | Option.some n => if n = 0 then "auto" else toString n
  | Option.none => "auto"

/-- `build_pipeline_summary` (pipeline.py lines 6-33) as a function of the
three looked-up rows (a lookup failure is `Option.none`, exactly as the
`except` branch leaves `preset = None`). -/
def build_pipeline_summary (preset : Option Preset) (asset : Option Asset)
    (destination : Option Destination) : String :=
  let preset_part :=
    match preset with
    | Option.none => "copy"
    | Option.some p =>
      if p.preset_type = PresetType.encode then
        "encode-v" ++ bitrate_or_auto p.video_bitrate ++ "-a" ++ bitrate_or_auto p.audio_bitrate
      else p.name
  let audio_part :=
    match asset with
    | Option.some a => if a.audio_only = false then "audio" else "video-only"
    | Option.none => "video-only"
  let dest_part :=
    match destination with
    | Option.some d => d.endpoint
    | Option.none => "unknown-dest"
  let flags :=
    ["-re"] ++
    (match preset with
     | Option.some p =>
       if p.preset_type = PresetType.copy ∧ p.force_encode = false then ["-c copy"] else []
     | Option.none => []) ++
    (match preset with
     | Option.some p =>
       if p.audio_replace = AudioReplaceMode.external_loop then
         ["-stream_loop -1 -i external_audio.mp3"]
       else []
     | Option.none => []) ++
    (match preset with
     | Option.some p =>
       if p.audio_replace = AudioReplaceMode.video_only then ["-an"] else []
     | Option.none => [])
  "ffmpeg " ++ String.intercalate " " flags ++ " // preset=" ++ preset_part ++ " // " ++
    audio_part ++ " -> " ++ dest_part

/-! ## Scheduler: store-level per-schedule routine (`scheduler.py`) -/

/-- The rows of the persistence collaborator that
`Scheduler._process_schedule` touches. `next_session_id` models the
autoincrementing `Session.id` primary key. -/
structure Store where
  jobs : List Job
  schedules : List Schedule
  sessions : List Session
  presets : List Preset
  assets : List Asset
  destinations : List Destination
  events : List EventLog
  next_session_id : Int
  deriving DecidableEq, Repr

/-- `session.get(Job, schedule.job_id)`. -/
def find_job (jobs : List Job) (jid : Int) : Option Job :=
  jobs.find? (fun j => j.id == jid)

/-- `session.get(Asset, job.asset_id)`. -/
def find_asset (assets : List Asset) (aid : Int) : Option Asset :=
  assets.find? (fun a => a.id == aid)

/-- `session.get(Destination, job.destination_id)`. -/
def find_destination (destinations : List Destination) (did : Int) : Option Destination :=
  destinations.find? (fun d => d.id == did)

/-- Committing an updated job row: every row with the same id is
rewritten. -/
def update_job (jobs : List Job) (j : Job) : List Job :=
  jobs.map (fun x => if x.id == j.id then j else x)

/-- Committing an updated schedule row. -/
def update_schedule (schedules : List Schedule) (s : Schedule) : List Schedule :=
  schedules.map (fun x => if x.id == s.id then s else x)

/-- `Scheduler._handle_invalid` (scheduler.py lines 111-124): mark the job
invalid and append an `invalidated` event carrying only `job_id`. -/
def handle_invalid (store : Store) (job : Job) (reason : String) (now : Int) : Store :=
  let j := { job with
    status := JobStatus.invalid, invalid_reason := Option.some reason, updated_at := now }
  { store with
      jobs := update_job store.jobs j,
      events := store.events ++
        [{ session_id := Option.none, job_id := Option.some job.id,
           schedule_id := Option.none, event_type := EventType.invalidated, message := reason }] }

/-- `Scheduler._start_session` (scheduler.py lines 77-90): render the
pipeline, create a `running` session, transition the job to `running`,
stamp `schedule.last_run_at`, and record a `started` event (which in the
source carries `schedule_id` and `job_id` but no `session_id`). -/
def start_session (store : Store) (schedule : Schedule) (job : Job) (now : Int) :
    Store × Session :=
  let summary := build_pipeline_summary (find_preset store.presets job.preset_id)
    (find_asset store.assets job.asset_id) (find_destination store.destinations job.destination_id)
  let sess : Session :=
    { id := store.next_session_id, schedule_id := schedule.id, job_id := job.id,
      started_at := now, ended_at := Option.none, status := JobStatus.running,
      ffmpeg_log_path := Option.some summary, reason := Option.none }
  let j := { job with status := JobStatus.running, updated_at := now }
  let sch := { schedule with last_run_at := Option.some now }
  ({ store with
      sessions := store.sessions ++ [sess],
      jobs := update_job store.jobs j,
      schedules := update_schedule store.schedules sch,
      next_session_id := store.next_session_id + 1,
      events := store.events ++
        [{ session_id := Option.none, job_id := Option.some job.id,
           schedule_id := Option.some schedule.id, event_type := EventType.started,
           message := "Session started with pipeline " ++ summary }] },
   sess)

/-- `Scheduler._complete_session` (scheduler.py lines 92-100): re-fetch
the session by id (no-op if missing) and close it. -/
def complete_session (store : Store) (sess : Session) (success : Bool) (reason : Option String)
    (now : Int) : Store :=
  { store with
      sessions := store.sessions.map (fun x =>
        if x.id == sess.id then
          { x with
              status := if success then JobStatus.completed else JobStatus.failed,
              ended_at := Option.some now, reason := reason }
        else x) }

/-- Which branch of `Scheduler._process_schedule` ran. The Python returns
`None`; this is the decision the spec's evaluator speaks of, read off the
branch structure. -/
inductive Decision
  | missing_job
  | invalid (reason : String)
  | skip
  | run
  deriving DecidableEq, Repr

/-- `Scheduler._process_schedule` (scheduler.py lines 126-143): fetch the
job (return if missing), read the tier, apply the looped-window tier
gate, then validation, then due-ness; when due, start a session and
immediately complete it with `simulated_success = True`. -/
def process_schedule (store : Store) (schedule : Schedule) (tier : LicenseTier) (now : Int) :
    Store × Decision :=
  match find_job store.jobs schedule.job_id with
  | Option.none => (store, Decision.missing_job)
  | Option.some job =>
    if tier = LicenseTier.basic ∧ schedule.loop = true ∧ schedule.mode = ScheduleMode.windowed then
      (handle_invalid store job "Looped windows require Premium or above" now,
       Decision.invalid "Looped windows require Premium or above")
    else
      match validate_schedule schedule with
      | Option.some reason => (handle_invalid store job reason now, Decision.invalid reason)
      | Option.none =>
        if should_run schedule now = false then (store, Decision.skip)
        else
          let started := start_session store schedule job now
          (complete_session started.1 started.2 true Option.none now, Decision.run)

/-! ## Theorems -/

/-- C8: a one_time-mode schedule is due if and only if `starts_at ≤ now`
and `ends_at` is unset or `now ≤ ends_at`. -/
theorem one_time_due_iff (s : Schedule) (now : Int) (h : s.mode = ScheduleMode.one_time) :
    should_run s now = true ↔
      (s.starts_at ≤ now ∧
        (s.ends_at = Option.none ∨ ∃ e, s.ends_at = Option.some e ∧ now ≤ e)) := by
  cases hE : s.ends_at with
  | none => simp [should_run, h, hE]
  | some e => simp [should_run, h, hE]

/-- Witness for C8: a concrete one_time schedule evaluated through
`one_time_due_iff`. -/
theorem one_time_due_iff_witness :
    should_run
      { id := 8, job_id := 8, starts_at := 0, ends_at := Option.some 10,
        duration_minutes := Option.none, mode := ScheduleMode.one_time,
        loop := false, run_now := false, last_run_at := Option.none } 5 = true :=
  (one_time_due_iff _ 5 rfl).mpr ⟨by decide, Or.inr ⟨10, rfl, by decide⟩⟩

/-- C2: `get_tier` returns the stored tier while trusted
(`now < lease_expires_at`) or in grace (lease strictly past, grace set
and `now < grace_expires_at`), and forces basic once the lease is
strictly past and grace is unset or no longer in the future. -/
theorem get_tier_states (st : LicenseState) (now : Int) :
    (now < st.lease_expires_at → get_tier st now = st.tier) ∧
    (st.lease_expires_at < now →
      ∀ g, st.grace_expires_at = Option.some g → now < g → get_tier st now = st.tier) ∧
    (st.lease_expires_at < now → st.grace_expires_at = Option.none →
      get_tier st now = LicenseTier.basic) ∧
    (st.lease_expires_at < now →
      ∀ g, st.grace_expires_at = Option.some g → g ≤ now → get_tier st now = LicenseTier.basic) := by
  refine ⟨fun h => ?_, fun h g hg hn => ?_, fun h hg => ?_, fun h g hg hn => ?_⟩
  · simp only [get_tier]
    rw [if_neg (by omega)]
  · simp only [get_tier]
    rw [if_pos h, hg]
    simp [hn]
  · simp only [get_tier]
    rw [if_pos h, hg]
  · simp only [get_tier]
    rw [if_pos h, hg]
    simp [show ¬ now < g by omega]

/-- Witness for C2: the spec's own scenarios — tier premium with an
expired lease stays premium inside a live grace window, and degrades to
basic with the grace window past or unset; a live lease is trusted. -/
theorem get_tier_states_witness :
    get_tier { tier := LicenseTier.premium, install_id := "i", install_secret := "s",
               lease_expires_at := 0, grace_expires_at := Option.some 20,
               last_checked_at := 0 } 10 = LicenseTier.premium ∧
    get_tier { tier := LicenseTier.premium, install_id := "i", install_secret := "s",
               lease_expires_at := 0, grace_expires_at := Option.none,
               last_checked_at := 0 } 10 = LicenseTier.basic ∧
    get_tier { tier := LicenseTier.premium, install_id := "i", install_secret := "s",
               lease_expires_at := 0, grace_expires_at := Option.some 5,
               last_checked_at := 0 } 10 = LicenseTier.basic ∧
    get_tier { tier := LicenseTier.premium, install_id := "i", install_secret := "s",
               lease_expires_at := 100, grace_expires_at := Option.none,
               last_checked_at := 0 } 10 = LicenseTier.premium := by
  refine ⟨?_, ?_, ?_, ?_⟩
  · exact (get_tier_states _ 10).2.1 (by decide) 20 rfl (by decide)
  · exact (get_tier_states _ 10).2.2.1 (by decide) rfl
  · exact (get_tier_states _ 10).2.2.2 (by decide) 5 rfl (by decide)
  · exact (get_tier_states _ 10).1 (by decide)

/-- C4: `acquire_lock` succeeds — writing/refreshing the row with
`expires_at = now + ttl` and `locked_by = runner_id` — exactly when no
row exists, the row is expired (`expires_at ≤ now`) or the row is already
owned by the requesting runner; it fails leaving the row unmutated
exactly when a different runner holds a non-expired lock. The two
hypothesis sets partition all inputs. -/
theorem acquire_lock_contract (lock : Option RunnerLock) (rid : String) (ttl now : Int) :
    ((lock = Option.none ∨ (∃ l, lock = Option.some l ∧ l.expires_at ≤ now) ∨
        (∃ l, lock = Option.some l ∧ l.locked_by = rid)) →
      (acquire_lock lock rid ttl now).1 = true ∧
      ∃ l2, (acquire_lock lock rid ttl now).2 = Option.some l2 ∧
        l2.expires_at = now + ttl ∧ l2.locked_by = rid) ∧
    ((∃ l, lock = Option.some l ∧ now < l.expires_at ∧ l.locked_by ≠ rid) →
      (acquire_lock lock rid ttl now).1 = false ∧
      (acquire_lock lock rid ttl now).2 = lock) := by
  constructor
  · intro h
    cases lock with
    | none => exact ⟨rfl, _, rfl, rfl, rfl⟩
    | some l =>
      have hc : ¬ (now < l.expires_at ∧ l.locked_by ≠ rid) := by
        rcases h with h | ⟨l', hl', he⟩ | ⟨l', hl', ho⟩
        · cases h
        · cases hl'
          intro hx
          omega
        · cases hl'
          intro hx
          exact hx.2 ho
      simp only [acquire_lock, if_neg hc]
      exact ⟨trivial, _, rfl, rfl, rfl⟩
  · rintro ⟨l, rfl, hc⟩
    simp only [acquire_lock, if_pos hc]
    exact ⟨trivial, trivial⟩

/-- Witness for C4: a fresh lock is granted with the requested TTL; a
re-entrant acquire by the holder succeeds; an acquire by another runner
against a non-expired lock fails without mutation. -/
theorem acquire_lock_contract_witness :
    ((acquire_lock Option.none "r1" 180 100).1 = true ∧
      ∃ l2, (acquire_lock Option.none "r1" 180 100).2 = Option.some l2 ∧
        l2.expires_at = 100 + 180 ∧ l2.locked_by = "r1") ∧
    ((acquire_lock (Option.some
        { lock_name := "scheduler", locked_by := "r1", locked_at := 100, expires_at := 280 })
        "r1" 180 150).1 = true ∧
      ∃ l2, (acquire_lock (Option.some
        { lock_name := "scheduler", locked_by := "r1", locked_at := 100, expires_at := 280 })
        "r1" 180 150).2 = Option.some l2 ∧
        l2.expires_at = 150 + 180 ∧ l2.locked_by = "r1") ∧
    ((acquire_lock (Option.some
        { lock_name := "scheduler", locked_by := "r1", locked_at := 100, expires_at := 280 })
        "r2" 180 150).1 = false ∧
      (acquire_lock (Option.some
        { lock_name := "scheduler", locked_by := "r1", locked_at := 100, expires_at := 280 })
        "r2" 180 150).2 = Option.some
        { lock_name := "scheduler", locked_by := "r1", locked_at := 100, expires_at := 280 }) := by
  refine ⟨?_, ?_, ?_⟩
  · exact (acquire_lock_contract Option.none "r1" 180 100).1 (Or.inl rfl)
  · exact (acquire_lock_contract _ "r1" 180 150).1 (Or.inr (Or.inr ⟨_, rfl, rfl⟩))
  · exact (acquire_lock_contract _ "r2" 180 150).2 ⟨_, rfl, by decide, by decide⟩

/-- A windowed schedule with `ends_at` set, `duration_minutes = 0` (a set
value that Python's `if schedule.duration_minutes:` treats as unset), a
window longer than the duration, and `loop = false`. -/
def zero_duration_schedule : Schedule :=
  { id := 7, job_id := 7, starts_at := 0, ends_at := Option.some 3600,
    duration_minutes := Option.some 0, mode := ScheduleMode.windowed,
    loop := false, run_now := false, last_run_at := Option.none }

/-- Counterexample to C7 as stated: both `ends_at` and `duration_minutes`
are set, the window (60 minutes) exceeds `duration_minutes` (0), `loop`
is false — yet the validator passes the schedule, because the source's
`if ... and schedule.duration_minutes:` treats 0 as unset. -/
theorem validate_zero_duration_counterexample :
    zero_duration_schedule.mode = ScheduleMode.windowed ∧
    zero_duration_schedule.ends_at = Option.some 3600 ∧
    zero_duration_schedule.duration_minutes = Option.some 0 ∧
    3600 - zero_duration_schedule.starts_at > 60 * (0 : Int) ∧
    zero_duration_schedule.loop = false ∧
    validate_schedule zero_duration_schedule = Option.none := by decide

/-- C7 amended: the validator flags exactly the windowed schedules with
`ends_at` set, `duration_minutes` set and nonzero, window length
exceeding the duration, and `loop` false; every other schedule passes,
and no other reason is ever produced. -/
theorem validate_schedule_iff (s : Schedule) :
    (validate_schedule s = Option.some "Loop required when window exceeds duration" ↔
      (s.mode = ScheduleMode.windowed ∧
        ∃ e d, s.ends_at = Option.some e ∧ s.duration_minutes = Option.some d ∧ d ≠ 0 ∧
          e - s.starts_at > 60 * d ∧ s.loop = false)) ∧
    (validate_schedule s = Option.none ∨
      validate_schedule s = Option.some "Loop required when window exceeds duration") := by
  cases hE : s.ends_at with
  | none => simp [validate_schedule, hE]
  | some e =>
    cases hD : s.duration_minutes with
    | none => simp [validate_schedule, hD]
    | some d =>
      by_cases hM : s.mode = ScheduleMode.windowed ∧ d ≠ 0
      · by_cases hW : e - s.starts_at > 60 * d ∧ s.loop = false
        · simp only [validate_schedule, hE, hD, if_pos hM, if_pos hW]
          exact ⟨⟨fun _ => ⟨hM.1, e, d, rfl, rfl, hM.2, hW.1, hW.2⟩, fun _ => trivial⟩,
            Or.inr trivial⟩
        · simp only [validate_schedule, hE, hD, if_pos hM, if_neg hW]
          refine ⟨⟨fun hx => absurd hx (by simp), ?_⟩, Or.inl trivial⟩
          rintro ⟨_, e', d', he', hd', hd0, hwin, hloop⟩
          injection he' with he2
          injection hd' with hd2
          subst he2
          subst hd2
          exact absurd ⟨hwin, hloop⟩ hW
      · simp only [validate_schedule, hE, hD, if_neg hM]
        refine ⟨⟨fun hx => absurd hx (by simp), ?_⟩, Or.inl trivial⟩
        rintro ⟨hm, e', d', he', hd', hd0, hwin, hloop⟩
        injection he' with he2
        injection hd' with hd2
        subst he2
        subst hd2
        exact absurd ⟨hm, hd0⟩ hM

/-- A windowed schedule inside its window and before its planned end:
`starts_at = 0`, `ends_at = 3600` (60 min), `duration_minutes = 30`
(planned end 1800), `loop = false`, evaluated at `now = 600`. -/
def inside_window_schedule : Schedule :=
  { id := 1, job_id := 1, starts_at := 0, ends_at := Option.some 3600,
    duration_minutes := Option.some 30, mode := ScheduleMode.windowed,
    loop := false, run_now := false, last_run_at := Option.none }

/-- Counterexample to C1 as stated: at `now = 600` the schedule satisfies
`starts_at ≤ now`, is not past `ends_at`, and is not past
`planned_end` — neither of the claim's two exclusions applies — yet
`should_run` is false, because of the source's third exclusion
(windowed, not loop, `ends_at > planned_end`, scheduler.py line 66). -/
theorem windowed_due_extra_exclusion_counterexample :
    inside_window_schedule.mode = ScheduleMode.windowed ∧
    inside_window_schedule.starts_at ≤ 600 ∧
    inside_window_schedule.ends_at = Option.some 3600 ∧ ¬ ((3600 : Int) < 600) ∧
    planned_end inside_window_schedule = 1800 ∧ ¬ ((1800 : Int) < 600) ∧
    should_run inside_window_schedule 600 = false := by decide

/-- C1 amended: a windowed schedule is due iff `starts_at ≤ now`, it is
not past a set `ends_at`, it is not past `planned_end` unless looping,
and — the exclusion the claim omits — it is not a non-looping schedule
whose set `ends_at` lies strictly beyond `planned_end` (which makes it
never due at any `now`). -/
theorem windowed_due_characterization (s : Schedule) (now : Int)
    (h : s.mode = ScheduleMode.windowed) :
    should_run s now = true ↔
      (s.starts_at ≤ now ∧
       (∀ e, s.ends_at = Option.some e → now ≤ e) ∧
       (planned_end s < now → s.loop = true) ∧
       (s.loop = false → ∀ e, s.ends_at = Option.some e → e ≤ planned_end s)) := by
  cases hE : s.ends_at with
  | none =>
    cases hL : s.loop with
    | false =>
      by_cases h1 : planned_end s < now
      · simp [should_run, hE, hL, h, h1]
      · simp [should_run, hE, hL, h, h1]
    | true => simp [should_run, hE, hL, h]
  | some e =>
    cases hL : s.loop with
    | false =>
      by_cases h0 : e < now
      · by_cases h1 : planned_end s < now
        · simp [should_run, hE, hL, h, h0, h1]
        · simp [should_run, hE, hL, h, h0, h1]
      · by_cases h1 : planned_end s < now
        · simp [should_run, hE, hL, h, h0, h1]
        · by_cases h2 : planned_end s < e
          · simp [should_run, hE, hL, h, h0, h1, h2]
          · simp [should_run, hE, hL, h, h0, h1, h2]
            omega
    | true =>
      by_cases h0 : e < now
      · simp [should_run, hE, hL, h, h0]
      · simp [should_run, hE, hL, h, h0]
        omega

/-- Witness for C1 amended: a looping windowed schedule inside its window
is due. -/
theorem windowed_due_characterization_witness :
    should_run
      { id := 2, job_id := 2, starts_at := 0, ends_at := Option.some 3600,
        duration_minutes := Option.some 30, mode := ScheduleMode.windowed,
        loop := true, run_now := false, last_run_at := Option.none } 600 = true :=
  (windowed_due_characterization _ 600 rfl).mpr
    ⟨by decide, fun e he => by cases he; decide, fun _ => rfl, fun hx => by cases hx⟩

/-- C6: `evaluate_license` behaves as the claim's if/else chain, the
checks applied in source order: missing preset; then, at basic tier,
`audio_replace ≠ none`, then `hot_swap ≠ none`; then, below ultimate
(i.e. at premium once the basic checks are passed), `hot_swap =
immediate`; otherwise the reason is cleared and the status set to
pending. The function's result is only a job record — no session is
involved on any path. -/
theorem evaluate_license_cases (tier : LicenseTier) (preset : Option Preset) (job : Job)
    (now : Int) :
    (preset = Option.none →
      evaluate_license tier preset job now = invalidate_job job "Missing preset" now) ∧
    (∀ p, preset = Option.some p → tier = LicenseTier.basic →
      p.audio_replace ≠ AudioReplaceMode.none →
      evaluate_license tier preset job now =
        invalidate_job job "Audio replace requires Premium" now) ∧
    (∀ p, preset = Option.some p → tier = LicenseTier.basic →
      p.audio_replace = AudioReplaceMode.none → p.hot_swap ≠ HotSwapMode.none →
      evaluate_license tier preset job now = invalidate_job job "Hot swap requires Premium" now) ∧
    (∀ p, preset = Option.some p → tier = LicenseTier.premium →
      p.hot_swap = HotSwapMode.immediate →
      evaluate_license tier preset job now =
        invalidate_job job "Immediate swaps require Ultimate" now) ∧
    (∀ p, preset = Option.some p →
      (tier = LicenseTier.basic →
        p.audio_replace = AudioReplaceMode.none ∧ p.hot_swap = HotSwapMode.none) →
      (tier ≠ LicenseTier.ultimate → p.hot_swap ≠ HotSwapMode.immediate) →
      evaluate_license tier preset job now =
        { job with invalid_reason := Option.none, status := JobStatus.pending,
                   updated_at := now }) := by
  refine ⟨fun hp => ?_, fun p hp ht ha => ?_, fun p hp ht ha hh => ?_,
    fun p hp ht hh => ?_, fun p hp hbasic hult => ?_⟩
  · subst hp
    rfl
  · subst hp
    subst ht
    simp [evaluate_license, ha]
  · subst hp
    subst ht
    simp [evaluate_license, ha, hh]
  · subst hp
    subst ht
    simp [evaluate_license, hh]
  · subst hp
    cases ht : tier with
    | basic =>
      subst ht
      obtain ⟨ha, hh⟩ := hbasic rfl
      simp [evaluate_license, ha, hh]
    | premium =>
      subst ht
      have hh := hult (by simp)
      simp [evaluate_license, hh]
    | ultimate =>
      subst ht
      simp [evaluate_license]

/-- Witness for C6 (the spec's Scenario B): at premium tier a preset with
`hot_swap = immediate` invalidates the job with reason "Immediate swaps
require Ultimate". -/
theorem evaluate_license_cases_witness :
    evaluate_license LicenseTier.premium
      (Option.some
        { id := 3, name := "p3", preset_type := PresetType.copy, video_bitrate := Option.none,
          audio_bitrate := Option.none, force_encode := false,
          audio_replace := AudioReplaceMode.none, hot_swap := HotSwapMode.immediate })
      { id := 3, asset_id := 3, destination_id := 3, preset_id := 3, created_at := 0,
        updated_at := 0, status := JobStatus.pending, invalid_reason := Option.none } 50 =
      invalidate_job
        { id := 3, asset_id := 3, destination_id := 3, preset_id := 3, created_at := 0,
          updated_at := 0, status := JobStatus.pending, invalid_reason := Option.none }
        "Immediate swaps require Ultimate" 50 :=
  (evaluate_license_cases LicenseTier.premium _ _ 50).2.2.2.1 _ rfl rfl rfl

/-- A preset allowed at basic tier (`audio_replace = none`,
`hot_swap = none`) next to a completed job that references it. -/
def basic_ok_preset : Preset :=
  { id := 1, name := "plain", preset_type := PresetType.copy, video_bitrate := Option.none,
    audio_bitrate := Option.none, force_encode := false,
    audio_replace := AudioReplaceMode.none, hot_swap := HotSwapMode.none }

/-- A job in status completed whose preset passes every basic-tier
check. -/
def completed_ok_job : Job :=
  { id := 1, asset_id := 1, destination_id := 1, preset_id := 1, created_at := 0,
    updated_at := 5, status := JobStatus.completed, invalid_reason := Option.none }

/-- Counterexample to C5 as stated: in a forced-downgrade cascade at
basic tier, a completed job whose preset uses no gated feature is not
left unchanged — `evaluate_license` rewrites its status to pending and
bumps `updated_at`. -/
theorem downgrade_cascade_mutates_passing_job :
    completed_ok_job.status = JobStatus.completed ∧
    basic_ok_preset.audio_replace = AudioReplaceMode.none ∧
    basic_ok_preset.hot_swap = HotSwapMode.none ∧
    downgrade_jobs LicenseTier.basic [basic_ok_preset] [completed_ok_job] 100 =
      [{ completed_ok_job with status := JobStatus.pending, updated_at := 100 }] ∧
    JobStatus.pending ≠ JobStatus.completed := by decide

/-- C5 amended: the basic-tier cascade (`downgrade_jobs` maps
`evaluate_license` over every job) invalidates exactly the jobs whose
preset is missing or uses `audio_replace ≠ none` or `hot_swap ≠ none`;
every other job is rewritten to status pending with `invalid_reason`
cleared and `updated_at` bumped (not left unchanged), and no other field
of any job is altered. -/
theorem downgrade_cascade_characterization (presets : List Preset) (now : Int) (j : Job) :
    (∀ p, find_preset presets j.preset_id = Option.some p →
      p.audio_replace = AudioReplaceMode.none → p.hot_swap = HotSwapMode.none →
      evaluate_license LicenseTier.basic (find_preset presets j.preset_id) j now =
        { j with status := JobStatus.pending, invalid_reason := Option.none,
                 updated_at := now }) ∧
    (∀ p, find_preset presets j.preset_id = Option.some p →
      (p.audio_replace ≠ AudioReplaceMode.none ∨ p.hot_swap ≠ HotSwapMode.none) →
      (evaluate_license LicenseTier.basic (find_preset presets j.preset_id) j now).status =
        JobStatus.invalid) ∧
    (find_preset presets j.preset_id = Option.none →
      (evaluate_license LicenseTier.basic (find_preset presets j.preset_id) j now).status =
        JobStatus.invalid) ∧
    ((evaluate_license LicenseTier.basic (find_preset presets j.preset_id) j now).id = j.id ∧
     (evaluate_license LicenseTier.basic (find_preset presets j.preset_id) j now).asset_id =
       j.asset_id ∧
     (evaluate_license LicenseTier.basic (find_preset presets j.preset_id) j now).destination_id =
       j.destination_id ∧
     (evaluate_license LicenseTier.basic (find_preset presets j.preset_id) j now).preset_id =
       j.preset_id ∧
     (evaluate_license LicenseTier.basic (find_preset presets j.preset_id) j now).created_at =
       j.created_at) ∧
    (∀ jobs : List Job, j ∈ jobs →
      evaluate_license LicenseTier.basic (find_preset presets j.preset_id) j now ∈
        downgrade_jobs LicenseTier.basic presets jobs now) := by
  refine ⟨fun p hp ha hh => ?_, fun p hp hor => ?_, fun hp => ?_, ?_, fun jobs hj => ?_⟩
  · rw [hp]
    simp [evaluate_license, ha, hh]
  · rw [hp]
    rcases hor with ha | hh
    · simp [evaluate_license, ha, invalidate_job]
    · by_cases ha : p.audio_replace = AudioReplaceMode.none
      · simp [evaluate_license, ha, hh, invalidate_job]
      · simp [evaluate_license, ha, invalidate_job]
  · rw [hp]
    rfl
  · cases hp : find_preset presets j.preset_id with
    | none => simp [evaluate_license, invalidate_job]
    | some p =>
      simp only [evaluate_license, invalidate_job]
      split
      · simp
      · split
        · simp
        · split
          · simp
          · simp
  · exact List.mem_map_of_mem _ hj

/-- Witness for C5 amended: the completed job from the counterexample is
reset to pending by the cascade, and its identity fields survive. -/
theorem downgrade_cascade_characterization_witness :
    evaluate_license LicenseTier.basic (find_preset [basic_ok_preset] completed_ok_job.preset_id)
        completed_ok_job 100 =
      { completed_ok_job with status := JobStatus.pending, invalid_reason := Option.none,
                              updated_at := 100 } ∧
    evaluate_license LicenseTier.basic (find_preset [basic_ok_preset] completed_ok_job.preset_id)
        completed_ok_job 100 ∈
      downgrade_jobs LicenseTier.basic [basic_ok_preset] [completed_ok_job] 100 := by
  constructor
  · exact (downgrade_cascade_characterization [basic_ok_preset] 100 completed_ok_job).1
      basic_ok_preset (by decide) (by decide) (by decide)
  · exact (downgrade_cascade_characterization [basic_ok_preset] 100
      completed_ok_job).2.2.2.2 [completed_ok_job] (by decide)

/-- The default `config.Settings` values relevant to the renewal cycle. -/
def default_licensing_config : LicensingConfig :=
  { license_lease_hours := 1, licensing_grace_hours := 6,
    licensing_retry_window_minutes := 30, licensing_retry_backoff_minutes := 5,
    scheduler_tick_seconds := 60 }

/-- A premium license whose lease is still live at `now = 100`. -/
def premium_live_state : LicenseState :=
  { tier := LicenseTier.premium, install_id := "install", install_secret := "secret",
    lease_expires_at := 1000, grace_expires_at := Option.none, last_checked_at := 0 }

/-- C3, what the code actually does on a failed renewal cycle (the claim
is right about the state and the event, wrong about the back-off):
the state afterwards has `grace_expires_at = now + grace_duration` with
the stored tier unchanged and one downgraded event — but because
`renew_license` catches the remote failure internally and returns
normally, `_run` takes its success path: the retry-window deadline IS
reset to `now + retry_window` (it was 500) and the cycle sleeps the full
lease interval, not the fixed backoff interval. -/
theorem renewal_failure_cycle_behavior :
    (run_cycle { license := premium_live_state, retry_deadline := 500 } [] []
        RemoteResult.failure false 100 default_licensing_config).1.license.tier =
      LicenseTier.premium ∧
    (run_cycle { license := premium_live_state, retry_deadline := 500 } [] []
        RemoteResult.failure false 100 default_licensing_config).1.license.grace_expires_at =
      Option.some (100 + 3600 * 6) ∧
    (run_cycle { license := premium_live_state, retry_deadline := 500 } [] []
        RemoteResult.failure false 100 default_licensing_config).2.2.2 =
      [EventType.downgraded] ∧
    (run_cycle { license := premium_live_state, retry_deadline := 500 } [] []
        RemoteResult.failure false 100 default_licensing_config).2.2.1 =
      SleepKind.full_lease ∧
    SleepKind.full_lease ≠ SleepKind.backoff ∧
    (run_cycle { license := premium_live_state, retry_deadline := 500 } [] []
        RemoteResult.failure false 100 default_licensing_config).1.retry_deadline =
      100 + 60 * 30 ∧
    (100 : Int) + 60 * 30 ≠ 500 := by decide

/-- A job row found by `find_job` carries the looked-up id. -/
theorem find_job_id (jobs : List Job) (jid : Int) (job : Job)
    (h : find_job jobs jid = Option.some job) : job.id = jid := by
  unfold find_job at h
  have h2 := List.find?_some h
  simpa using h2

/-- After committing an update of the found job's row, the same lookup
returns the updated row. -/
theorem find_job_update_job (jobs : List Job) (jid : Int) (job j2 : Job)
    (h : find_job jobs jid = Option.some job) (hid : j2.id = job.id) :
    find_job (update_job jobs j2) jid = Option.some j2 := by
  have hjid : job.id = jid := find_job_id jobs jid job h
  induction jobs with
  | nil => simp [find_job] at h
  | cons a t ih =>
    by_cases ha : a.id = jid
    · have hb : (a.id == j2.id) = true := by
        simp [hid, hjid, ha]
      simp only [update_job, List.map_cons, hb, if_pos]
      have hb2 : (j2.id == jid) = true := by
        simp [hid, hjid]
      simp [find_job, List.find?_cons_of_pos, hb2]
    · have hb2 : a.id ≠ j2.id := by
        rw [hid, hjid]
        exact ha
      have hstep : update_job (a :: t) j2 = a :: update_job t j2 := by
        simp [update_job, hb2]
      have ht : find_job t jid = Option.some job := by
        unfold find_job at h ⊢
        rwa [List.find?_cons_of_neg _ (by simp [ha])] at h
      have hrec := ih ht
      rw [hstep]
      unfold find_job at hrec ⊢
      rw [List.find?_cons_of_neg _ (by simp [ha])]
      exact hrec

/-- C10: the per-schedule routine never reads the referenced job's
status: for a job in any status, when the tier gate and validation pass
and the schedule is due, the decision is run, one new session for this
(schedule, job) is created (immediately completed with the simulated
success), and the job row is rewritten to running. No hypothesis
constrains `job.status`. -/
theorem process_schedule_ignores_job_status (store : Store) (schedule : Schedule)
    (tier : LicenseTier) (now : Int) (job : Job)
    (hj : find_job store.jobs schedule.job_id = Option.some job)
    (hgate : ¬ (tier = LicenseTier.basic ∧ schedule.loop = true ∧
      schedule.mode = ScheduleMode.windowed))
    (hval : validate_schedule schedule = Option.none)
    (hdue : should_run schedule now = true) :
    (process_schedule store schedule tier now).2 = Decision.run ∧
    (process_schedule store schedule tier now).1.sessions.length =
      store.sessions.length + 1 ∧
    (∃ x ∈ (process_schedule store schedule tier now).1.sessions,
      x.schedule_id = schedule.id ∧ x.job_id = job.id ∧ x.started_at = now ∧
      x.status = JobStatus.completed) ∧
    (process_schedule store schedule tier now).1.jobs =
      update_job store.jobs { job with status := JobStatus.running, updated_at := now } := by
  have hps : process_schedule store schedule tier now =
      (complete_session (start_session store schedule job now).1
        (start_session store schedule job now).2 true Option.none now, Decision.run) := by
    simp only [process_schedule, hj]
    rw [if_neg hgate]
    simp only [hval, hdue]
    simp
  refine ⟨by rw [hps], ?_, ?_, ?_⟩
  · rw [hps]
    simp [complete_session, start_session]
  · rw [hps]
    have hmem : (show Session from
        { id := store.next_session_id, schedule_id := schedule.id,
          job_id := job.id, started_at := now, ended_at := Option.some now,
          status := JobStatus.completed,
          ffmpeg_log_path := Option.some (build_pipeline_summary
            (find_preset store.presets job.preset_id) (find_asset store.assets job.asset_id)
            (find_destination store.destinations job.destination_id)),
          reason := Option.none }) ∈
        (complete_session (start_session store schedule job now).1
          (start_session store schedule job now).2 true Option.none now).sessions := by
      simp [complete_session, start_session]
    exact ⟨_, hmem, rfl, rfl, rfl, rfl⟩
  · rw [hps]
    rfl

/-- A job already in status completed. -/
def completed_job : Job :=
  { id := 10, asset_id := 10, destination_id := 10, preset_id := 10, created_at := 0,
    updated_at := 0, status := JobStatus.completed, invalid_reason := Option.none }

/-- A due one_time schedule referencing `completed_job`. -/
def completed_job_schedule : Schedule :=
  { id := 10, job_id := 10, starts_at := 0, ends_at := Option.none,
    duration_minutes := Option.none, mode := ScheduleMode.one_time,
    loop := false, run_now := false, last_run_at := Option.none }

/-- A store holding only `completed_job` and its schedule. -/
def completed_job_store : Store :=
  { jobs := [completed_job], schedules := [completed_job_schedule],
    sessions := [], presets := [], assets := [], destinations := [], events := [],
    next_session_id := 1 }

/-- Witness for C10: a job already completed is nonetheless re-run —
the routine starts a fresh session and moves the job back to running. -/
theorem process_schedule_ignores_job_status_witness :
    (process_schedule completed_job_store completed_job_schedule LicenseTier.premium 10).2 =
      Decision.run ∧
    (process_schedule completed_job_store completed_job_schedule
      LicenseTier.premium 10).1.sessions.length = completed_job_store.sessions.length + 1 ∧
    (∃ x ∈ (process_schedule completed_job_store completed_job_schedule
        LicenseTier.premium 10).1.sessions,
      x.schedule_id = completed_job_schedule.id ∧ x.job_id = completed_job.id ∧
      x.started_at = 10 ∧ x.status = JobStatus.completed) ∧
    (process_schedule completed_job_store completed_job_schedule
        LicenseTier.premium 10).1.jobs =
      update_job completed_job_store.jobs
        { completed_job with status := JobStatus.running, updated_at := 10 } :=
  process_schedule_ignores_job_status completed_job_store completed_job_schedule
    LicenseTier.premium 10 completed_job (by decide) (by decide) (by decide) (by decide)

/-- Two successive calls of the per-schedule routine on the same
(schedule, tier, now): the second call sees the store the first left
behind, with no other write in between. -/
def process_twice (store : Store) (schedule : Schedule) (tier : LicenseTier) (now : Int) :
    (Store × Decision) × (Store × Decision) :=
  (process_schedule store schedule tier now,
   process_schedule (process_schedule store schedule tier now).1 schedule tier now)

/-- C9 amended: repeating the evaluator yields the same decision both
times; on skip or missing-job nothing is written at all, on invalid no
session is created by either call — but on run each call creates its own
session (one after the first call, two after the second): the routine
has no duplicate-session guard. -/
theorem evaluator_repeat_characterization (store : Store) (schedule : Schedule)
    (tier : LicenseTier) (now : Int) :
    ((process_twice store schedule tier now).2.2 =
      (process_twice store schedule tier now).1.2) ∧
    (((process_twice store schedule tier now).1.2 = Decision.skip ∨
        (process_twice store schedule tier now).1.2 = Decision.missing_job) →
      (process_twice store schedule tier now).1.1 = store ∧
      (process_twice store schedule tier now).2.1 = store) ∧
    (∀ m, (process_twice store schedule tier now).1.2 = Decision.invalid m →
      (process_twice store schedule tier now).1.1.sessions = store.sessions ∧
      (process_twice store schedule tier now).2.1.sessions = store.sessions) ∧
    ((process_twice store schedule tier now).1.2 = Decision.run →
      (process_twice store schedule tier now).1.1.sessions.length =
        store.sessions.length + 1 ∧
      (process_twice store schedule tier now).2.1.sessions.length =
        store.sessions.length + 2) := by
  rcases hfj : find_job store.jobs schedule.job_id with _ | job
  · have h1 : process_schedule store schedule tier now = (store, Decision.missing_job) := by
      simp [process_schedule, hfj]
    simp [process_twice, h1]
  · by_cases hgate : tier = LicenseTier.basic ∧ schedule.loop = true ∧
        schedule.mode = ScheduleMode.windowed
    · have h1 : process_schedule store schedule tier now =
          (handle_invalid store job "Looped windows require Premium or above" now,
           Decision.invalid "Looped windows require Premium or above") := by
        simp only [process_schedule, hfj]
        rw [if_pos hgate]
      have hfj2 : find_job
          (handle_invalid store job "Looped windows require Premium or above" now).jobs
          schedule.job_id = Option.some (invalidate_job job "Looped windows require Premium or above" now) :=
        find_job_update_job store.jobs schedule.job_id job _ hfj rfl
      have h2 : process_schedule
          (handle_invalid store job "Looped windows require Premium or above" now)
          schedule tier now =
          (handle_invalid
            (handle_invalid store job "Looped windows require Premium or above" now)
            (invalidate_job job "Looped windows require Premium or above" now)
            "Looped windows require Premium or above" now,
           Decision.invalid "Looped windows require Premium or above") := by
        simp only [process_schedule, hfj2]
        rw [if_pos hgate]
      simp only [process_twice, h1, h2]
      simp [handle_invalid]
    · rcases hval : validate_schedule schedule with _ | reason
      · by_cases hdue : should_run schedule now = true
        · have h1 : process_schedule store schedule tier now =
              (complete_session (start_session store schedule job now).1
                (start_session store schedule job now).2 true Option.none now,
               Decision.run) := by
            simp only [process_schedule, hfj]
            rw [if_neg hgate]
            simp only [hval, hdue]
            simp
          have hfj2 : find_job
              (complete_session (start_session store schedule job now).1
                (start_session store schedule job now).2 true Option.none now).jobs
              schedule.job_id = Option.some { job with status := JobStatus.running, updated_at := now } :=
            find_job_update_job store.jobs schedule.job_id job _ hfj rfl
          have h2 : process_schedule
              (complete_session (start_session store schedule job now).1
                (start_session store schedule job now).2 true Option.none now)
              schedule tier now =
              (complete_session
                (start_session
                  (complete_session (start_session store schedule job now).1
                    (start_session store schedule job now).2 true Option.none now)
                  schedule { job with status := JobStatus.running, updated_at := now } now).1
                (start_session
                  (complete_session (start_session store schedule job now).1
                    (start_session store schedule job now).2 true Option.none now)
                  schedule { job with status := JobStatus.running, updated_at := now } now).2
                true Option.none now,
               Decision.run) := by
            simp only [process_schedule, hfj2]
            rw [if_neg hgate]
            simp only [hval, hdue]
            simp
          refine ⟨by simp only [process_twice, h1, h2],
            by simp only [process_twice, h1, h2]; simp,
            by simp only [process_twice, h1, h2]; simp, fun _ => ⟨?_, ?_⟩⟩
          · simp only [process_twice, h1]
            simp [complete_session, start_session]
          · simp only [process_twice, h1, h2]
            simp [complete_session, start_session]
        · have hdue2 : should_run schedule now = false := by
            simpa using hdue
          have h1 : process_schedule store schedule tier now = (store, Decision.skip) := by
            simp only [process_schedule, hfj]
            rw [if_neg hgate]
            simp only [hval, hdue2]
            simp
          simp [process_twice, h1]
      · have h1 : process_schedule store schedule tier now =
            (handle_invalid store job reason now, Decision.invalid reason) := by
          simp only [process_schedule, hfj]
          rw [if_neg hgate]
          simp only [hval]
        have hfj2 : find_job (handle_invalid store job reason now).jobs schedule.job_id =
            Option.some (invalidate_job job reason now) :=
          find_job_update_job store.jobs schedule.job_id job _ hfj rfl
        have h2 : process_schedule (handle_invalid store job reason now) schedule tier now =
            (handle_invalid (handle_invalid store job reason now)
              (invalidate_job job reason now) reason now,
             Decision.invalid reason) := by
          simp only [process_schedule, hfj2]
          rw [if_neg hgate]
          simp only [hval]
        simp only [process_twice, h1, h2]
        simp [handle_invalid]

/-- A pending job and a due one_time schedule referencing it, in an
otherwise empty store. -/
def dup_job : Job :=
  { id := 9, asset_id := 9, destination_id := 9, preset_id := 9, created_at := 0,
    updated_at := 0, status := JobStatus.pending, invalid_reason := Option.none }

/-- The due one_time schedule of `dup_job`. -/
def dup_schedule : Schedule :=
  { id := 9, job_id := 9, starts_at := 0, ends_at := Option.none,
    duration_minutes := Option.none, mode := ScheduleMode.one_time,
    loop := false, run_now := false, last_run_at := Option.none }

/-- The store holding only `dup_job` and `dup_schedule`. -/
def dup_store : Store :=
  { jobs := [dup_job], schedules := [dup_schedule], sessions := [], presets := [],
    assets := [], destinations := [], events := [], next_session_id := 1 }

/-- Counterexample to C9 as stated: two calls of the evaluator on the
same due (schedule, job, tier, now) with no intervening external write
both decide run, and the resulting store holds two Session records for
the same (schedule, job) — a duplicate Session. -/
theorem evaluator_repeat_duplicate_counterexample :
    (process_twice dup_store dup_schedule LicenseTier.premium 10).1.2 = Decision.run ∧
    (process_twice dup_store dup_schedule LicenseTier.premium 10).2.2 = Decision.run ∧
    ((process_twice dup_store dup_schedule LicenseTier.premium 10).2.1.sessions.countP
      (fun x => x.schedule_id == 9 && x.job_id == 9)) = 2 := by decide

/-- Witness for C9 amended: on the concrete due schedule the first call
adds one session and the second adds another. -/
theorem evaluator_repeat_characterization_witness :
    (process_twice dup_store dup_schedule LicenseTier.premium 10).1.1.sessions.length =
      dup_store.sessions.length + 1 ∧
    (process_twice dup_store dup_schedule LicenseTier.premium 10).2.1.sessions.length =
      dup_store.sessions.length + 2 :=
  (evaluator_repeat_characterization dup_store dup_schedule LicenseTier.premium 10).2.2.2
    (by decide)

end ZSTRM
